import Mathlib

/-!
# Trading 212 instrument browser (`src/App.jsx`)

A shallow embedding of the logic of the `TradingInstruments` component: the
search/cap/filter pipeline `filteredAndSorted`, the facet lists `types` and
`currencies`, the four state setters, the memoised `recentDate` threshold and
the conditional part of the rendered output.

Conventions of the embedding.
* JavaScript strings are `String`; `===` on strings is equality, and `!s` on a
  string holds exactly for the empty string.
* A `Date` is its time value: `some t` for `t` milliseconds since the epoch,
  `none` for an Invalid Date (time value NaN). The host's time zone, which
  `setDate` and `getDate` work in, is a parameter.
* `Fuse` is the external fuzzy-search library: its index is a value with a
  `search` method, taken as a parameter everywhere.
-/

namespace CheckMyBroker

/-! ## Data model -/

/-- One record of `data/instruments.json`, with the fields the component reads.
`addedOn` is the time value of `new Date(instrument.addedOn)`: `none` when that
is an Invalid Date (a text that does not parse, a number out of range, a
missing field). -/
structure Instrument where
  ticker : String
  isin : String
  shortName : String
  name : String
  type : String
  currencyCode : String
  maxOpenQuantity : Int
  extendedHours : Bool
  workingScheduleId : Int
  addedOn : Option Int
deriving DecidableEq

/-- One element of the array returned by `fuse.search`: the matched record and
its position in the indexed collection. -/
structure FuseResult where
  item : Instrument
  refIndex : Nat
deriving DecidableEq

/-- The fuzzy index `new Fuse(instruments, ...)`: the library is external, so
the index is whatever function from a query to an ordered result array. -/
structure Fuse where
  search : String → List FuseResult

/-! ## The query pipeline (`App.jsx` lines 120-134) -/

/-- The callback of `results.filter` (lines 127-131). -/
def matchesFilters (typeFilter currencyFilter : String) (inst : Instrument) : Bool :=
  let matchesType := decide (typeFilter = "All") || decide (inst.type = typeFilter)
  let matchesCurrency :=
    decide (currencyFilter = "All") || decide (inst.currencyCode = currencyFilter)
  matchesType && matchesCurrency

/-- The body of the `filteredAndSorted` memo (lines 120-134), with its use of
the external index made visible: the first component lists the queries handed
to `fuse.search` (none on the early return of line 121, the committed query on
line 124), the second is the returned array. -/
def filteredAndSortedTraced (fuse : Fuse) (searchTerm typeFilter currencyFilter : String) :
    List String × List Instrument :=
  if searchTerm = "" then ([], [])
  else
    let results := ((fuse.search searchTerm).take 10).map (fun r => r.item)
    ([searchTerm], results.filter (matchesFilters typeFilter currencyFilter))

/-- The value of the `filteredAndSorted` memo. -/
def filteredAndSorted (fuse : Fuse) (searchTerm typeFilter currencyFilter : String) :
    List Instrument :=
  (filteredAndSortedTraced fuse searchTerm typeFilter currencyFilter).2

/-- The queries handed to `fuse.search` while the memo body runs. -/
def searchCalls (fuse : Fuse) (searchTerm typeFilter currencyFilter : String) : List String :=
  (filteredAndSortedTraced fuse searchTerm typeFilter currencyFilter).1

/-- The other order of the two steps, as the design note of the specification
describes it: apply the two categorical filters to every candidate first and
cap the survivors at 10 afterwards. Not what the component does. -/
def filterThenCap (fuse : Fuse) (searchTerm typeFilter currencyFilter : String) :
    List Instrument :=
  if searchTerm = "" then []
  else
    ((((fuse.search searchTerm).map (fun r => r.item)).filter
      (matchesFilters typeFilter currencyFilter))).take 10

/-! ## Facet lists (lines 136-137) -/

/-- The elements of `new Set(xs)` in iteration order: each value is added in
turn and a value already present is skipped, so the order is that of first
insertion. -/
def newSet (xs : List String) : List String :=
  xs.foldl (fun s x => if x ∈ s then s else s ++ [x]) []

/-- Line 136: `['All', ...new Set(instruments.map(i => i.type))]`. -/
def types (instruments : List Instrument) : List String :=
  "All" :: newSet (instruments.map (fun i => i.type))

/-- Line 137: `['All', ...new Set(instruments.map(i => i.currencyCode))]`. -/
def currencies (instruments : List Instrument) : List String :=
  "All" :: newSet (instruments.map (fun i => i.currencyCode))

/-! ## Component state and its setters (lines 102-105, 139-141, 161, 177, 190) -/

/-- The four `useState` cells of `TradingInstruments`. -/
structure State where
  searchInput : String
  searchTerm : String
  typeFilter : String
  currencyFilter : String
deriving DecidableEq

/-- The initial values given to `useState`. -/
def initialState : State :=
  { searchInput := "", searchTerm := "", typeFilter := "All", currencyFilter := "All" }

/-- The `onChange` handler of the text input (line 161). -/
def setSearchInput (st : State) (value : String) : State :=
  { st with searchInput := value }

/-- The `onClick` handler of the Search button (lines 139-141). -/
def handleSearch (st : State) : State :=
  { st with searchTerm := st.searchInput }

/-- The `onChange` handler of the type select (line 177). -/
def setTypeFilter (st : State) (value : String) : State :=
  { st with typeFilter := value }

/-- The `onChange` handler of the currency select (line 190). -/
def setCurrencyFilter (st : State) (value : String) : State :=
  { st with currencyFilter := value }

/-- The user events the component handles. -/
inductive Event where
  | changeSearchInput (value : String)
  | clickSearch
  | changeTypeFilter (value : String)
  | changeCurrencyFilter (value : String)
deriving DecidableEq

/-- The state after one event. -/
def State.handle (st : State) : Event → State
  | .changeSearchInput value => setSearchInput st value
  | .clickSearch => handleSearch st
  | .changeTypeFilter value => setTypeFilter st value
  | .changeCurrencyFilter value => setCurrencyFilter st value

/-! ## Recency threshold (lines 107-111, 213) -/

/-- Milliseconds in a day. -/
def msPerDay : Int := 86400000

/-- The operation `TimeClip` that ends `new Date(number)` and `setDate`: a time
value more than 8.64e15 ms from the epoch becomes NaN. -/
def timeClip (t : Int) : Option Int :=
  if -8640000000000000 ≤ t ∧ t ≤ 8640000000000000 then some t else none

/-- The host's time zone, as the `Date` methods see it: the offset of local
time from UTC in milliseconds, once as a function of a UTC time value
(`LocalTZA(t, true)`) and once as a function of a local time value
(`LocalTZA(t, false)`). -/
structure TimeZone where
  offsetAtUtc : Int → Int
  offsetAtLocal : Int → Int

/-- The callback of the `recentDate` memo run when the clock reads `now`:
`d = new Date(); d.setDate(d.getDate() - 30); return d`. `setDate` takes the
local time of `d`, moves its day of the month back by 30 keeping the time
within the day (so exactly 30 local calendar days), converts the local result
back to UTC with the offset in force there, and clips. -/
def thirtyDaysAgo (zone : TimeZone) (now : Int) : Option Int :=
  let t := now + zone.offsetAtUtc now
  let newDate := t - 30 * msPerDay
  timeClip (newDate - zone.offsetAtLocal newDate)

/-- The hook `useMemo(f, [])`: with an empty dependency list the callback runs
only while the cell is still empty; afterwards the stored value is returned. -/
def useMemoNoDeps {α : Type} (cell : Option α) (computed : α) : α :=
  match cell with
  | some stored => stored
  | none => computed

/-- The `isRecent` prop of line 213: `new Date(instrument.addedOn) > recentDate`.
The two dates are compared by time value, and a comparison with NaN is false. -/
def isRecent (instrument : Instrument) (recentDate : Option Int) : Bool :=
  match instrument.addedOn, recentDate with
  | some added, some threshold => decide (added > threshold)
  | _, _ => false

/-- Line 8: availability of an instrument. -/
def isAvailable (instrument : Instrument) : Bool :=
  decide (instrument.maxOpenQuantity > 0)

/-! ## Rendering (lines 143-228) -/

/-- The props of one `InstrumentCard`. -/
structure CardProps where
  instrument : Instrument
  isRecent : Bool
deriving DecidableEq

/-- What is inside `searchTerm && (...)` (lines 201-225): the two numbers of
the "Showing _ of _ instruments" line, the cards, and whether the
"No instruments found matching your criteria" block is there. -/
structure ResultsPanel where
  showing : Nat
  total : Nat
  cards : List CardProps
  noInstrumentsFound : Bool
deriving DecidableEq

/-- The parts of the rendered tree that depend on data. -/
structure View where
  searchInputValue : String
  typeOptions : List String
  typeValue : String
  currencyOptions : List String
  currencyValue : String
  results : Option ResultsPanel
deriving DecidableEq

/-- A mounted component: the `useState` cells and the cell of the `recentDate`
memo (`none` until the first render has run). -/
structure Component where
  state : State
  recentDateCell : Option (Option Int)
deriving DecidableEq

/-- The value of `recentDate` in a render at time `now`. -/
def recentDate (zone : TimeZone) (c : Component) (now : Int) : Option Int :=
  useMemoNoDeps c.recentDateCell (thirtyDaysAgo zone now)

/-- One call of the function `TradingInstruments` at time `now`, in a host
whose time zone is `zone`: the rendered view. The `fuse` and
`filteredAndSorted` memos hold pure functions of their dependencies, so they
are evaluated directly. -/
def render (zone : TimeZone) (instruments : List Instrument) (fuse : Fuse) (c : Component)
    (now : Int) : View :=
  let rd := recentDate zone c now
  let results := filteredAndSorted fuse c.state.searchTerm c.state.typeFilter c.state.currencyFilter
  { searchInputValue := c.state.searchInput
    typeOptions := types instruments
    typeValue := c.state.typeFilter
    currencyOptions := currencies instruments
    currencyValue := c.state.currencyFilter
    results :=
      if c.state.searchTerm = "" then none
      else some
        { showing := results.length
          total := instruments.length
          cards := results.map (fun instrument =>
            { instrument := instrument, isRecent := isRecent instrument rd })
          noInstrumentsFound := decide (results.length = 0) } }

/-- The component after a render at time `now`: the memo cell holds the value
the render used. -/
def afterRender (zone : TimeZone) (c : Component) (now : Int) : Component :=
  { c with recentDateCell := some (recentDate zone c now) }

/-- The component right after its first render, at time `mountTime`. -/
def mount (zone : TimeZone) (mountTime : Int) : Component :=
  afterRender zone { state := initialState, recentDateCell := none } mountTime

/-- What happens to a mounted component: a user event, or a re-render at some time. -/
inductive Step where
  | event (e : Event)
  | rerender (now : Int)
deriving DecidableEq

/-- The component after one step. -/
def Component.step (zone : TimeZone) (c : Component) : Step → Component
  | .event e => { c with state := c.state.handle e }
  | .rerender now => afterRender zone c now

/-- The component after a sequence of steps. -/
def Component.run (zone : TimeZone) (c : Component) (steps : List Step) : Component :=
  steps.foldl (Component.step zone) c

/-- The cards of a view (none when the results block is not rendered). -/
def View.cards (v : View) : List CardProps :=
  match v.results with
  | some panel => panel.cards
  | none => []

/-- Whether the "No instruments found matching your criteria" block is in a view. -/
def View.noInstrumentsFound (v : View) : Bool :=
  match v.results with
  | some panel => panel.noInstrumentsFound
  | none => false

/-- Whether the "Showing _ of _ instruments" line is in a view. -/
def View.countShown (v : View) : Bool :=
  v.results.isSome

/-- Reading of "the sentinel followed by every distinct value of `vals`, each
once, in order of first occurrence" for a facet list: the head is `All`, and
the rest has no repetition, has exactly the members of `vals`, and lists them
in the order in which they first occur in `vals`. -/
def FacetOf (vals facet : List String) : Prop :=
  facet.head? = some "All" ∧
    facet.tail.Nodup ∧
    (∀ v, v ∈ facet.tail ↔ v ∈ vals) ∧
    ∀ a b, a ∈ vals → b ∈ vals →
      (List.indexOf a facet.tail < List.indexOf b facet.tail ↔
        List.indexOf a vals < List.indexOf b vals)

/-! ## Sample data -/

/-- The record `AAPL` of the specification's scenario. -/
def aapl : Instrument :=
  { ticker := "AAPL", isin := "US0378331005", shortName := "AAPL", name := "Apple",
    type := "Stock", currencyCode := "USD", maxOpenQuantity := 100,
    extendedHours := true, workingScheduleId := 1, addedOn := timeClip 0 }

/-- The record `AAPU` of the specification's scenario. -/
def aapu : Instrument :=
  { ticker := "AAPU", isin := "US25461A8743", shortName := "AAPU", name := "Apple Bull 2X",
    type := "ETF", currencyCode := "USD", maxOpenQuantity := 0,
    extendedHours := false, workingScheduleId := 1, addedOn := timeClip 0 }

/-- A search that answers every query with `AAPL` then `AAPU`. -/
def applFuse : Fuse :=
  { search := fun _ => [{ item := aapl, refIndex := 0 }, { item := aapu, refIndex := 1 }] }

/-- A catalog value that collides with the sentinel: a record whose `type` and
`currencyCode` are both the string `All`. -/
def allRecord : Instrument :=
  { ticker := "ALL", isin := "US0200021014", shortName := "ALL", name := "Allstate",
    type := "All", currencyCode := "All", maxOpenQuantity := 10,
    extendedHours := false, workingScheduleId := 2, addedOn := timeClip 0 }

/-- The zone UTC: local time is UTC. -/
def utc : TimeZone :=
  { offsetAtUtc := fun _ => 0, offsetAtLocal := fun _ => 0 }

/-- A zone one hour ahead of UTC whose clocks go forward by one more hour at
2024-03-31T01:00Z (local 02:00 becomes 03:00), as Europe/Madrid did that
spring. A local time in the skipped hour is read with the offset of before the
change. -/
def madridSpring : TimeZone :=
  { offsetAtUtc := fun t => if t < 1711846800000 then 3600000 else 7200000
    offsetAtLocal := fun t => if t < 1711846800000 + 7200000 then 3600000 else 7200000 }

/-- The steps of typing `AAPL` and clicking Search. -/
def searchAapl : List Step :=
  [.event (.changeSearchInput "AAPL"), .event .clickSearch]

/-- A component mounted in UTC at day 5 in which the query `AAPL` has been
typed and committed. -/
def searchedComponent : Component :=
  (mount utc (5 * msPerDay)).run utc searchAapl

/-- A record added at 2024-03-16T12:30Z. -/
def marchRecord : Instrument :=
  { aapl with ticker := "MAR", shortName := "MAR", addedOn := timeClip 1710592200000 }

/-- A record whose `addedOn` is a number beyond the range of dates. -/
def undatedRecord : Instrument :=
  { aapl with ticker := "UND", shortName := "UND", addedOn := timeClip 8640000000000001 }

/-- A search that answers every query with `marchRecord` then `undatedRecord`. -/
def marchFuse : Fuse :=
  { search := fun _ =>
      [{ item := marchRecord, refIndex := 0 }, { item := undatedRecord, refIndex := 1 }] }

/-- A `Stock` record in `USD` with the given ticker. -/
def stockNamed (ticker : String) : Instrument :=
  { aapl with ticker := ticker, shortName := ticker }

/-- A search that answers every query with ten `Stock` records and then the
`ETF` record `AAPU` in eleventh place. -/
def elevenFuse : Fuse :=
  { search := fun _ =>
      ((List.range 10).map (fun n => { item := stockNamed (toString n), refIndex := n }))
        ++ [{ item := aapu, refIndex := 10 }] }

/-! ## Auxiliary facts -/

theorem matchesFilters_iff (typeFilter currencyFilter : String) (inst : Instrument) :
    matchesFilters typeFilter currencyFilter inst = true ↔
      (typeFilter = "All" ∨ inst.type = typeFilter) ∧
        (currencyFilter = "All" ∨ inst.currencyCode = currencyFilter) := by
  simp [matchesFilters]

theorem matchesFilters_all_left (typeFilter currencyFilter : String) (inst : Instrument)
    (h : matchesFilters typeFilter currencyFilter inst = true) :
    matchesFilters "All" currencyFilter inst = true := by
  rw [matchesFilters_iff] at h ⊢
  exact ⟨Or.inl rfl, h.2⟩

theorem matchesFilters_all_right (typeFilter currencyFilter : String) (inst : Instrument)
    (h : matchesFilters typeFilter currencyFilter inst = true) :
    matchesFilters typeFilter "All" inst = true := by
  rw [matchesFilters_iff] at h ⊢
  exact ⟨h.1, Or.inl rfl⟩

theorem filteredAndSorted_of_ne (fuse : Fuse) (searchTerm typeFilter currencyFilter : String)
    (h : searchTerm ≠ "") :
    filteredAndSorted fuse searchTerm typeFilter currencyFilter =
      (((fuse.search searchTerm).take 10).map (fun r => r.item)).filter
        (matchesFilters typeFilter currencyFilter) := by
  simp [filteredAndSorted, filteredAndSortedTraced, h]

theorem filteredAndSorted_sublist_of_imp (fuse : Fuse) (searchTerm t c t2 c2 : String)
    (h : ∀ inst, matchesFilters t c inst = true → matchesFilters t2 c2 inst = true) :
    (filteredAndSorted fuse searchTerm t c).Sublist (filteredAndSorted fuse searchTerm t2 c2) := by
  by_cases hq : searchTerm = ""
  · simp [filteredAndSorted, filteredAndSortedTraced, hq]
  · rw [filteredAndSorted_of_ne fuse searchTerm t c hq,
      filteredAndSorted_of_ne fuse searchTerm t2 c2 hq]
    exact List.monotone_filter_right _ h

theorem newSet_concat (xs : List String) (x : String) :
    newSet (xs ++ [x]) = if x ∈ newSet xs then newSet xs else newSet xs ++ [x] := by
  simp [newSet, List.foldl_append]

theorem mem_newSet (xs : List String) : ∀ v : String, v ∈ newSet xs ↔ v ∈ xs := by
  induction xs using List.reverseRecOn with
  | nil => simp [newSet]
  | append_singleton xs x ih =>
    intro v
    rw [newSet_concat]
    by_cases hx : x ∈ newSet xs
    · rw [if_pos hx, ih v]
      constructor
      · intro hv
        exact List.mem_append_left _ hv
      · intro hv
        rcases List.mem_append.1 hv with hv | hv
        · exact hv
        · rw [List.mem_singleton.1 hv]
          exact (ih x).1 hx
    · rw [if_neg hx]
      simp [List.mem_append, ih v]

theorem nodup_newSet (xs : List String) : (newSet xs).Nodup := by
  induction xs using List.reverseRecOn with
  | nil => simp [newSet]
  | append_singleton xs x ih =>
    rw [newSet_concat]
    split
    · exact ih
    · rename_i hx
      rw [List.nodup_append]
      refine ⟨ih, List.nodup_singleton x, ?_⟩
      intro a ha hax
      rw [List.mem_singleton.1 hax] at ha
      exact hx ha

/-- The order of `newSet xs` is the order of first occurrence in `xs`. -/
theorem indexOf_newSet_lt_iff (xs : List String) (a b : String) (ha : a ∈ xs) (hb : b ∈ xs) :
    List.indexOf a (newSet xs) < List.indexOf b (newSet xs) ↔
      List.indexOf a xs < List.indexOf b xs := by
  induction xs using List.reverseRecOn with
  | nil => simp at ha
  | append_singleton xs x ih =>
    rw [newSet_concat]
    by_cases hx : x ∈ newSet xs
    · rw [if_pos hx]
      have hxs : x ∈ xs := (mem_newSet xs x).1 hx
      have hax : a ∈ xs := by
        rcases List.mem_append.1 ha with h | h
        · exact h
        · rw [List.mem_singleton.1 h]; exact hxs
      have hbx : b ∈ xs := by
        rcases List.mem_append.1 hb with h | h
        · exact h
        · rw [List.mem_singleton.1 h]; exact hxs
      rw [List.indexOf_append_of_mem hax, List.indexOf_append_of_mem hbx]
      exact ih hax hbx
    · rw [if_neg hx]
      have hxs : x ∉ xs := fun h => hx ((mem_newSet xs x).2 h)
      have hlen : ∀ v, v ∈ xs → List.indexOf v (newSet xs ++ [x]) < (newSet xs).length ∧
          List.indexOf v (xs ++ [x]) < xs.length ∧
          List.indexOf v (newSet xs ++ [x]) = List.indexOf v (newSet xs) ∧
          List.indexOf v (xs ++ [x]) = List.indexOf v xs := by
        intro v hv
        have hv2 : v ∈ newSet xs := (mem_newSet xs v).2 hv
        rw [List.indexOf_append_of_mem hv2, List.indexOf_append_of_mem hv]
        exact ⟨List.indexOf_lt_length.2 hv2, List.indexOf_lt_length.2 hv, rfl, rfl⟩
      have hlast : List.indexOf x (newSet xs ++ [x]) = (newSet xs).length ∧
          List.indexOf x (xs ++ [x]) = xs.length := by
        rw [List.indexOf_append_of_not_mem hx, List.indexOf_append_of_not_mem hxs]
        simp
      by_cases hax : a ∈ xs
      · by_cases hbx : b ∈ xs
        · rw [(hlen a hax).2.2.1, (hlen a hax).2.2.2, (hlen b hbx).2.2.1, (hlen b hbx).2.2.2]
          exact ih hax hbx
        · have hbe : b = x := by
            rcases List.mem_append.1 hb with h | h
            · exact absurd h hbx
            · exact List.mem_singleton.1 h
          subst hbe
          rw [hlast.1, hlast.2]
          exact ⟨fun _ => (hlen a hax).2.1, fun _ => (hlen a hax).1⟩
      · have hae : a = x := by
          rcases List.mem_append.1 ha with h | h
          · exact absurd h hax
          · exact List.mem_singleton.1 h
        subst hae
        rw [hlast.1, hlast.2]
        by_cases hbx : b ∈ xs
        · constructor
          · intro h
            exact absurd (hlen b hbx).1 (by omega)
          · intro h
            exact absurd (hlen b hbx).2.1 (by omega)
        · have hbe : b = a := by
            rcases List.mem_append.1 hb with h | h
            · exact absurd h hbx
            · exact List.mem_singleton.1 h
          subst hbe
          rw [hlast.1, hlast.2]
          simp

/-! ## Claims about the query pipeline -/

/-- C1: for every fuzzy index (hence every catalog) and every pair of filters,
an empty committed query gives the empty result list, and no query is handed to
the fuzzy search. -/
theorem filteredAndSorted_empty_query (fuse : Fuse) (typeFilter currencyFilter : String) :
    filteredAndSorted fuse "" typeFilter currencyFilter = [] ∧
      searchCalls fuse "" typeFilter currencyFilter = [] := by
  simp [filteredAndSorted, searchCalls, filteredAndSortedTraced]

/-- C2: whatever the fuzzy search returns, and for every committed query (the
non-empty ones in particular) and every pair of filters, the result list has at
most 10 elements. -/
theorem filteredAndSorted_length_le_ten (fuse : Fuse)
    (searchTerm typeFilter currencyFilter : String) :
    (filteredAndSorted fuse searchTerm typeFilter currencyFilter).length ≤ 10 := by
  by_cases hq : searchTerm = ""
  · simp [filteredAndSorted, filteredAndSortedTraced, hq]
  · rw [filteredAndSorted_of_ne fuse searchTerm typeFilter currencyFilter hq]
    calc (List.filter (matchesFilters typeFilter currencyFilter)
            (((fuse.search searchTerm).take 10).map (fun r => r.item))).length
        ≤ (((fuse.search searchTerm).take 10).map (fun r => r.item)).length :=
          List.length_filter_le _ _
      _ = ((fuse.search searchTerm).take 10).length := List.length_map _ _
      _ ≤ 10 := List.length_take_le _ _

/-- C3: for a non-empty committed query the result is the first 10 candidates
of the search, each resolved to its record, from which exactly the records with
(typeFilter = "All" or type = typeFilter) and (currencyFilter = "All" or
currencyCode = currencyFilter) are kept, in the same order: the cap comes
before the filters. -/
theorem filteredAndSorted_eq_cap_then_filter (fuse : Fuse)
    (searchTerm typeFilter currencyFilter : String) (h : searchTerm ≠ "") :
    filteredAndSorted fuse searchTerm typeFilter currencyFilter =
      List.filter
        (fun r => decide ((typeFilter = "All" ∨ r.type = typeFilter) ∧
          (currencyFilter = "All" ∨ r.currencyCode = currencyFilter)))
        (List.map (fun c => c.item) (List.take 10 (fuse.search searchTerm))) := by
  rw [filteredAndSorted_of_ne fuse searchTerm typeFilter currencyFilter h]
  apply List.filter_congr
  intro r _
  rw [Bool.eq_iff_iff, matchesFilters_iff]
  simp

/-- Witness of C3 on the AAPL/AAPU search with the type filter `ETF`. -/
theorem filteredAndSorted_eq_cap_then_filter_witness :
    "AAPL" ≠ "" ∧
      filteredAndSorted applFuse "AAPL" "ETF" "All" =
        List.filter
          (fun r => decide (("ETF" = "All" ∨ r.type = "ETF") ∧
            ("All" = "All" ∨ r.currencyCode = "All")))
          (List.map (fun c => c.item) (List.take 10 (applFuse.search "AAPL"))) :=
  ⟨by decide, filteredAndSorted_eq_cap_then_filter applFuse "AAPL" "ETF" "All" (by decide)⟩

/-- C4: filtering is monotonic. For every committed query and filters (t, c),
the result under (t, c) is an order-preserving sublist of the result under
("All", c), under (t, "All") and under ("All", "All"), and so is no longer than
any of them. -/
theorem filteredAndSorted_monotone (fuse : Fuse) (searchTerm t c : String) :
    ((filteredAndSorted fuse searchTerm t c).Sublist (filteredAndSorted fuse searchTerm "All" c) ∧
      (filteredAndSorted fuse searchTerm t c).Sublist (filteredAndSorted fuse searchTerm t "All") ∧
      (filteredAndSorted fuse searchTerm t c).Sublist
        (filteredAndSorted fuse searchTerm "All" "All")) ∧
    ((filteredAndSorted fuse searchTerm t c).length ≤
        (filteredAndSorted fuse searchTerm "All" c).length ∧
      (filteredAndSorted fuse searchTerm t c).length ≤
        (filteredAndSorted fuse searchTerm t "All").length ∧
      (filteredAndSorted fuse searchTerm t c).length ≤
        (filteredAndSorted fuse searchTerm "All" "All").length) := by
  have h1 := filteredAndSorted_sublist_of_imp fuse searchTerm t c "All" c
    (fun inst hi => matchesFilters_all_left t c inst hi)
  have h2 := filteredAndSorted_sublist_of_imp fuse searchTerm t c t "All"
    (fun inst hi => matchesFilters_all_right t c inst hi)
  have h3 := filteredAndSorted_sublist_of_imp fuse searchTerm t c "All" "All"
    (fun inst hi => matchesFilters_all_left t "All" inst (matchesFilters_all_right t c inst hi))
  exact ⟨⟨h1, h2, h3⟩, h1.length_le, h2.length_le, h3.length_le⟩

/-- C5: for every committed query, a type filter other than "All" leaves only
records of that type and a currency filter other than "All" leaves only records
of that currency; with the search returning AAPL (Stock) then AAPU (ETF) and
the type filter "ETF", the result is exactly [AAPU]. -/
theorem filteredAndSorted_respects_filters :
    (∀ (fuse : Fuse) (searchTerm typeFilter currencyFilter : String),
      (typeFilter ≠ "All" →
        ∀ r ∈ filteredAndSorted fuse searchTerm typeFilter currencyFilter, r.type = typeFilter) ∧
      (currencyFilter ≠ "All" →
        ∀ r ∈ filteredAndSorted fuse searchTerm typeFilter currencyFilter,
          r.currencyCode = currencyFilter)) ∧
    filteredAndSorted applFuse "AAPL" "ETF" "All" = [aapu] := by
  refine ⟨?_, by decide⟩
  intro fuse searchTerm typeFilter currencyFilter
  by_cases hq : searchTerm = ""
  · simp [filteredAndSorted, filteredAndSortedTraced, hq]
  · rw [filteredAndSorted_of_ne fuse searchTerm typeFilter currencyFilter hq]
    constructor
    · intro ht r hr
      have hm := (matchesFilters_iff typeFilter currencyFilter r).1 (List.mem_filter.1 hr).2
      exact hm.1.resolve_left ht
    · intro hc r hr
      have hm := (matchesFilters_iff typeFilter currencyFilter r).1 (List.mem_filter.1 hr).2
      exact hm.2.resolve_left hc

/-- Witness of C5: the type filter `ETF` on the AAPL/AAPU search, at the one
record of the result. -/
theorem filteredAndSorted_respects_filters_witness :
    "ETF" ≠ "All" ∧ aapu ∈ filteredAndSorted applFuse "AAPL" "ETF" "All" ∧ aapu.type = "ETF" :=
  ⟨by decide, by decide,
    (filteredAndSorted_respects_filters.1 applFuse "AAPL" "ETF" "All").1 (by decide) aapu
      (by decide)⟩

/-- C10: capping then filtering differs from filtering then capping. There are
a search result, a pair of filters and a record such that the record is among
the candidates and passes both filters, yet is absent from the result although
the result has fewer than 10 elements, and filtering before capping returns a
different list. (Ten Stock records ahead of the ETF record AAPU, type filter
"ETF": the result is empty, filtering first gives AAPU.) -/
theorem cap_before_filter_drops_match :
    ∃ (fuse : Fuse) (searchTerm typeFilter currencyFilter : String) (r : Instrument),
      r ∈ (fuse.search searchTerm).map (fun c => c.item) ∧
        matchesFilters typeFilter currencyFilter r = true ∧
        r ∉ filteredAndSorted fuse searchTerm typeFilter currencyFilter ∧
        (filteredAndSorted fuse searchTerm typeFilter currencyFilter).length < 10 ∧
        r ∈ filterThenCap fuse searchTerm typeFilter currencyFilter ∧
        filteredAndSorted fuse searchTerm typeFilter currencyFilter ≠
          filterThenCap fuse searchTerm typeFilter currencyFilter := by
  refine ⟨elevenFuse, "AAP", "ETF", "All", aapu, ?_, ?_, ?_, ?_, ?_, ?_⟩ <;> decide

/-! ## Claims about the facet lists -/

/-- C6, as stated, fails: on a catalog holding a record whose type is the
string "All", that value is present in the catalog and occurs twice in the
facet list `types`. -/
theorem types_sentinel_collision :
    "All" ∈ [allRecord, aapl].map (fun i => i.type) ∧
      types [allRecord, aapl] = ["All", "All", "Stock"] ∧
      List.count "All" (types [allRecord, aapl]) = 2 ∧
      ¬ (types [allRecord, aapl]).Nodup := by
  refine ⟨?_, ?_, ?_, ?_⟩ <;> decide

/-- C6, amended: for every catalog, `types` (and likewise `currencies`) is
"All" followed by the distinct type (currencyCode) values of the catalog, each
exactly once after that leading "All" and in order of first occurrence; every
such value other than "All" occurs exactly once in the whole list, which is
free of repetition when no record has the value "All"; and every
render offers these two lists whatever the query and the filters. -/
theorem facets_after_sentinel (instruments : List Instrument) :
    FacetOf (instruments.map (fun i => i.type)) (types instruments) ∧
      FacetOf (instruments.map (fun i => i.currencyCode)) (currencies instruments) ∧
      (∀ v ∈ instruments.map (fun i => i.type), v ≠ "All" →
        List.count v (types instruments) = 1) ∧
      (∀ v ∈ instruments.map (fun i => i.currencyCode), v ≠ "All" →
        List.count v (currencies instruments) = 1) ∧
      ("All" ∉ instruments.map (fun i => i.type) → (types instruments).Nodup) ∧
      ("All" ∉ instruments.map (fun i => i.currencyCode) → (currencies instruments).Nodup) ∧
      ∀ (zone : TimeZone) (fuse : Fuse) (c : Component) (now : Int),
        (render zone instruments fuse c now).typeOptions = types instruments ∧
          (render zone instruments fuse c now).currencyOptions = currencies instruments := by
  have facet : ∀ vals : List String, FacetOf vals ("All" :: newSet vals) := fun vals =>
    ⟨rfl, nodup_newSet vals, mem_newSet vals, fun a b ha hb => indexOf_newSet_lt_iff vals a b ha hb⟩
  have nodup : ∀ vals : List String, "All" ∉ vals → ("All" :: newSet vals).Nodup := fun vals h =>
    List.nodup_cons.2 ⟨fun hm => h ((mem_newSet vals "All").1 hm), nodup_newSet vals⟩
  have once : ∀ vals : List String, ∀ v ∈ vals, v ≠ "All" →
      List.count v ("All" :: newSet vals) = 1 := fun vals v hv hne => by
    rw [List.count_cons_of_ne hne]
    exact List.count_eq_one_of_mem (nodup_newSet vals) ((mem_newSet vals v).2 hv)
  exact ⟨facet _, facet _, once _, once _, nodup _, nodup _, fun _ _ _ _ => ⟨rfl, rfl⟩⟩

/-- Witness of C6 (amended) on the catalog AAPL, AAPU, AAPL: no type is "All"
and the type facet has no repetition. -/
theorem facets_after_sentinel_witness :
    "All" ∉ [aapl, aapu, aapl].map (fun i => i.type) ∧ (types [aapl, aapu, aapl]).Nodup :=
  ⟨by decide, (facets_after_sentinel [aapl, aapu, aapl]).2.2.2.2.1 (by decide)⟩

/-! ## Claims about recency -/

theorem recentDate_afterRender (zone : TimeZone) (c : Component) (now later : Int) :
    recentDate zone (afterRender zone c now) later = recentDate zone c now := by
  simp [recentDate, afterRender, useMemoNoDeps]

theorem recentDate_step (zone : TimeZone) (c : Component) (s : Step) (threshold : Option Int)
    (h : ∀ now, recentDate zone c now = threshold) :
    ∀ now, recentDate zone (c.step zone s) now = threshold := by
  intro now
  cases s with
  | event e => exact h now
  | rerender t => rw [Component.step, recentDate_afterRender]; exact h t

theorem recentDate_run (zone : TimeZone) (steps : List Step) (c : Component)
    (threshold : Option Int) (h : ∀ now, recentDate zone c now = threshold) :
    ∀ now, recentDate zone (c.run zone steps) now = threshold := by
  induction steps generalizing c with
  | nil => exact h
  | cons s rest ih => exact ih (c.step zone s) (recentDate_step zone c s threshold h)

theorem recentDate_mount_run (zone : TimeZone) (mountTime : Int) (steps : List Step)
    (now : Int) :
    recentDate zone ((mount zone mountTime).run zone steps) now = thirtyDaysAgo zone mountTime :=
  recentDate_run zone steps (mount zone mountTime) (thirtyDaysAgo zone mountTime)
    (fun later => by simp [mount, recentDate, afterRender, useMemoNoDeps]) now

theorem mem_cards_render (zone : TimeZone) (instruments : List Instrument) (fuse : Fuse)
    (c : Component) (now : Int) (card : CardProps)
    (h : card ∈ (render zone instruments fuse c now).cards) :
    card.isRecent = isRecent card.instrument (recentDate zone c now) := by
  unfold View.cards render at h
  by_cases hq : c.state.searchTerm = ""
  · simp [hq] at h
  · simp only [hq, if_false, List.mem_map] at h
    obtain ⟨inst, _, rfl⟩ := h
    rfl

theorem isRecent_eq_true_iff (instrument : Instrument) (recentDate : Option Int) :
    isRecent instrument recentDate = true ↔
      ∃ added threshold, instrument.addedOn = some added ∧ recentDate = some threshold ∧
        added > threshold := by
  unfold isRecent
  cases ha : instrument.addedOn with
  | none => simp
  | some added =>
    cases hr : recentDate with
    | none => simp
    | some threshold => simp

/-- In UTC the threshold is the clock's time minus 30 times 24 hours. -/
theorem thirtyDaysAgo_utc (now : Int) :
    thirtyDaysAgo utc now = timeClip (now - 30 * msPerDay) := by
  simp [thirtyDaysAgo, utc]

/-- C7, as stated, fails: a component first rendered (in UTC) at day 5, in
which "AAPL" is then searched, is rendered again at day 45. The card of AAPL,
added at day 0 and so 45 days before this render, is still flagged recent,
although 30 days before this render is day 15 and day 0 is not later. -/
theorem isRecent_stale_threshold :
    (render utc [aapl, aapu] applFuse searchedComponent (45 * msPerDay)).cards =
        [{ instrument := aapl, isRecent := true }, { instrument := aapu, isRecent := true }] ∧
      aapl.addedOn = some 0 ∧
      thirtyDaysAgo utc (45 * msPerDay) = some (15 * msPerDay) ∧
      ¬ ((0 : Int) > 15 * msPerDay) := by
  refine ⟨?_, ?_, ?_, ?_⟩ <;> decide

/-- C7, amended: in every render of a component first rendered at time
`mountTime`, whatever events and re-renders came in between and whatever the
time zone, the threshold is the cached value computed at that first render
(30 local calendar days before it), and the isRecent flag of every card is true
iff the record's addedOn is a valid date strictly later than that cached
threshold; when the threshold is within a day of `mountTime - 30 days` (clock
changes move it by an hour), a record added 5 days before the first render is
flagged recent and one added 60 days before it is not. -/
theorem isRecent_iff_after_mount_threshold (zone : TimeZone) (instruments : List Instrument)
    (fuse : Fuse) (mountTime : Int) (steps : List Step) (now : Int) :
    recentDate zone ((mount zone mountTime).run zone steps) now = thirtyDaysAgo zone mountTime ∧
      (∀ card ∈ (render zone instruments fuse ((mount zone mountTime).run zone steps) now).cards,
        (card.isRecent = true ↔
          ∃ added threshold, card.instrument.addedOn = some added ∧
            thirtyDaysAgo zone mountTime = some threshold ∧ added > threshold)) ∧
      (∀ threshold : Int, thirtyDaysAgo zone mountTime = some threshold →
        mountTime - 31 * msPerDay ≤ threshold → threshold ≤ mountTime - 29 * msPerDay →
        ∀ r : Instrument,
          (r.addedOn = some (mountTime - 5 * msPerDay) →
            isRecent r (recentDate zone ((mount zone mountTime).run zone steps) now) = true) ∧
          (r.addedOn = some (mountTime - 60 * msPerDay) →
            isRecent r (recentDate zone ((mount zone mountTime).run zone steps) now) = false)) := by
  have hrd := recentDate_mount_run zone mountTime steps now
  refine ⟨hrd, ?_, ?_⟩
  · intro card hc
    rw [mem_cards_render zone instruments fuse _ now card hc, hrd]
    exact isRecent_eq_true_iff _ _
  · intro threshold ht hlo hhi r
    rw [hrd, ht]
    constructor
    · intro hr
      rw [isRecent_eq_true_iff]
      refine ⟨_, threshold, hr, rfl, ?_⟩
      simp only [msPerDay] at hhi ⊢
      omega
    · intro hr
      rw [Bool.eq_false_iff]
      intro hrec
      obtain ⟨added, thr, ha, hthr, hlt⟩ := (isRecent_eq_true_iff _ _).1 hrec
      rw [hr] at ha
      simp only [Option.some.injEq] at ha hthr
      subst ha hthr
      simp only [msPerDay] at hlo hlt
      omega

/-- Witness of C7 (amended), across a clock change: mounted at 2024-04-15T12:00Z
in `madridSpring`, the cached threshold is 2024-03-16T13:00Z (30 calendar days
back in local time, an hour later than 30 times 24 hours back); in a render a
day later the card of a record added at 2024-03-16T12:30Z is not flagged, nor
is the card of a record whose addedOn is an Invalid Date. -/
theorem isRecent_iff_after_mount_threshold_witness :
    thirtyDaysAgo madridSpring 1713182400000 = some 1710594000000 ∧
      (render madridSpring [marchRecord] marchFuse
          ((mount madridSpring 1713182400000).run madridSpring searchAapl)
          (1713182400000 + msPerDay)).cards =
        [{ instrument := marchRecord, isRecent := false },
          { instrument := undatedRecord, isRecent := false }] ∧
      ({ instrument := marchRecord, isRecent := false } : CardProps) ∈
        (render madridSpring [marchRecord] marchFuse
          ((mount madridSpring 1713182400000).run madridSpring searchAapl)
          (1713182400000 + msPerDay)).cards ∧
      ((({ instrument := marchRecord, isRecent := false } : CardProps).isRecent = true) ↔
        ∃ added threshold, marchRecord.addedOn = some added ∧
          thirtyDaysAgo madridSpring 1713182400000 = some threshold ∧ added > threshold) :=
  ⟨by decide, by decide, by decide,
    (isRecent_iff_after_mount_threshold madridSpring [marchRecord] marchFuse 1713182400000
      searchAapl (1713182400000 + msPerDay)).2.1
      { instrument := marchRecord, isRecent := false } (by decide)⟩

/-! ## Claims about the state -/

/-- C8: editing the draft changes only searchInput, and so leaves the result
list unchanged; committing copies searchInput into searchTerm and changes
nothing else; each filter setter changes only its own field; hence every event
other than a click on Search leaves searchTerm as it was. -/
theorem setters_frame (st : State) (value : String) :
    ((setSearchInput st value).searchInput = value ∧
      (setSearchInput st value).searchTerm = st.searchTerm ∧
      (setSearchInput st value).typeFilter = st.typeFilter ∧
      (setSearchInput st value).currencyFilter = st.currencyFilter ∧
      ∀ fuse : Fuse,
        filteredAndSorted fuse (setSearchInput st value).searchTerm
            (setSearchInput st value).typeFilter (setSearchInput st value).currencyFilter =
          filteredAndSorted fuse st.searchTerm st.typeFilter st.currencyFilter) ∧
    ((handleSearch st).searchTerm = st.searchInput ∧
      (handleSearch st).searchInput = st.searchInput ∧
      (handleSearch st).typeFilter = st.typeFilter ∧
      (handleSearch st).currencyFilter = st.currencyFilter) ∧
    ((setTypeFilter st value).typeFilter = value ∧
      (setTypeFilter st value).searchInput = st.searchInput ∧
      (setTypeFilter st value).searchTerm = st.searchTerm ∧
      (setTypeFilter st value).currencyFilter = st.currencyFilter) ∧
    ((setCurrencyFilter st value).currencyFilter = value ∧
      (setCurrencyFilter st value).searchInput = st.searchInput ∧
      (setCurrencyFilter st value).searchTerm = st.searchTerm ∧
      (setCurrencyFilter st value).typeFilter = st.typeFilter) ∧
    ∀ e : Event, e ≠ Event.clickSearch → (st.handle e).searchTerm = st.searchTerm := by
  refine ⟨⟨rfl, rfl, rfl, rfl, fun _ => rfl⟩, ⟨rfl, rfl, rfl, rfl⟩, ⟨rfl, rfl, rfl, rfl⟩,
    ⟨rfl, rfl, rfl, rfl⟩, ?_⟩
  intro e he
  cases e with
  | changeSearchInput v => rfl
  | clickSearch => exact absurd rfl he
  | changeTypeFilter v => rfl
  | changeCurrencyFilter v => rfl

/-- Witness of C8: typing "AAPL" into the initial state is not a click on
Search and leaves searchTerm empty. -/
theorem setters_frame_witness :
    Event.changeSearchInput "AAPL" ≠ Event.clickSearch ∧
      (initialState.handle (Event.changeSearchInput "AAPL")).searchTerm = "" :=
  ⟨by decide,
    (setters_frame initialState "AAPL").2.2.2.2 (Event.changeSearchInput "AAPL") (by decide)⟩

/-! ## Claims about the rendered output -/

/-- C9: in every render the "No instruments found" block is present iff the
committed query is non-empty and the result list is empty; with an empty
committed query the block, the count line and the cards are all absent; so a
render with an empty query and a render with a non-empty query and no result
are never the same. -/
theorem noInstrumentsFound_iff (zone : TimeZone) (instruments : List Instrument) (fuse : Fuse)
    (c : Component) (now : Int) :
    ((render zone instruments fuse c now).noInstrumentsFound = true ↔
      c.state.searchTerm ≠ "" ∧
        filteredAndSorted fuse c.state.searchTerm c.state.typeFilter c.state.currencyFilter = []) ∧
    (c.state.searchTerm = "" →
      (render zone instruments fuse c now).noInstrumentsFound = false ∧
        (render zone instruments fuse c now).countShown = false ∧
        (render zone instruments fuse c now).cards = []) ∧
    (c.state.searchTerm = "" →
      ∀ (other : Component) (otherNow : Int), other.state.searchTerm ≠ "" →
        filteredAndSorted fuse other.state.searchTerm other.state.typeFilter
            other.state.currencyFilter = [] →
        (render zone instruments fuse other otherNow).noInstrumentsFound = true ∧
          (render zone instruments fuse other otherNow).countShown = true ∧
          render zone instruments fuse c now ≠ render zone instruments fuse other otherNow) := by
  have shown : ∀ (other : Component) (otherNow : Int),
      ((render zone instruments fuse other otherNow).noInstrumentsFound = true ↔
        other.state.searchTerm ≠ "" ∧
          filteredAndSorted fuse other.state.searchTerm other.state.typeFilter
            other.state.currencyFilter = []) := by
    intro other otherNow
    by_cases hq : other.state.searchTerm = ""
    · simp [View.noInstrumentsFound, render, hq]
    · simp [View.noInstrumentsFound, render, hq]
  have hidden : c.state.searchTerm = "" → (render zone instruments fuse c now).results = none := by
    intro hq
    simp [render, hq]
  refine ⟨shown c now, ?_, ?_⟩
  · intro hq
    simp [View.noInstrumentsFound, View.countShown, View.cards, hidden hq]
  · intro hq other otherNow hne hres
    refine ⟨(shown other otherNow).2 ⟨hne, hres⟩, by simp [View.countShown, render, hne], ?_⟩
    intro heq
    have h1 : (render zone instruments fuse c now).results =
        (render zone instruments fuse other otherNow).results := by rw [heq]
    rw [hidden hq] at h1
    simp [render, hne] at h1

/-- Witness of C9: with an index that finds nothing, the render of the initial
component (empty committed query) differs from the render of
`searchedComponent` (query "AAPL", no result). -/
theorem noInstrumentsFound_iff_witness :
    initialState.searchTerm = "" ∧
      render utc [aapl] { search := fun _ => [] } { state := initialState, recentDateCell := none } 0 ≠
        render utc [aapl] { search := fun _ => [] } searchedComponent 0 :=
  ⟨by decide,
    ((noInstrumentsFound_iff utc [aapl] { search := fun _ => [] }
      { state := initialState, recentDateCell := none } 0).2.2 (by decide)
      searchedComponent 0 (by decide) (by decide)).2.2⟩

end CheckMyBroker
